import Mathlib

/-
Verification of the session-based code-execution service.

Shallow embedding of:
  app/services/session_process.py  (SessionProcess.execute, worker_function)
  app/services/session_manager.py  (SessionManager.execute, _create_session,
                                    _remove_session)
  app/services/sandbox.py          (_create_safe_stub, _create_safe_open,
                                    apply_sandbox_to_namespace)
  app/services/memory_limiter.py   (module-level names)
  app/models/response.py           (ExecuteResponse.check_mutual_exclusivity)

Strings stand for Python strings; Option String stands for str-or-None;
Bool-valued fields of ExecCtx record the values the code observes at its
explicit read points (the memory_exceeded flag is written concurrently by
the monitor thread, so each read is a separate observation).
-/

/-- The (stdout, stderr, error) triple that SessionProcess.execute returns
and that worker_function puts on the output queue. -/
structure Outcome where
  stdout : Option String
  stderr : Option String
  error  : Option String
deriving DecidableEq, Repr

/-- Python truthiness conversion used by worker_function (lines 161-162):
a captured buffer is reported as None when it is the empty string. -/
def strToOpt (s : String) : Option String :=
  if s = "" then none else some s

/-- Abstract behaviour of one evaluated code fragment inside
exec(code, interpreter.locals): either it completes, having written the
given texts to the captured stdout and stderr buffers, or it raises a
fault, having written the given texts before the fault; tracebackText is
the rendering traceback.format_exc() would produce for that fault
(type, message and traceback; it is never the empty string). -/
inductive CodeBehavior where
  | ok (stdoutText stderrText : String)
  | raised (stdoutText stderrText tracebackText : String)
deriving DecidableEq

/-- One iteration of worker_function's receive loop
(session_process.py lines 148-180): on success the two captured buffers
are sent (each absent if empty) with no error; on a fault the captured
stderr is sent — replaced by the traceback rendering when it is empty —
with stdout and error absent. -/
def workerStep : CodeBehavior → Outcome
  | .ok so se => ⟨strToOpt so, strToOpt se, none⟩
  | .raised _ se tb => ⟨none, some (if se = "" then tb else se), none⟩

/-- Character-level model of Python str.startswith. -/
def str_startswith (s pre : String) : Bool :=
  List.isPrefixOf pre.toList s.toList

/-- Character-level model of Python's (c in s) for a single character c. -/
def str_contains_char (s : String) (c : Char) : Bool :=
  s.toList.contains c

/-- Message raised by the sandbox stubs (sandbox.py lines 28 and 55). -/
def permissionDeniedMsg (resource : String) : String :=
  "[Errno 13] Permission denied: " ++ "'" ++ resource ++ "'"

/-- Embeds _create_safe_stub's safe_function (sandbox.py lines 23-30):
every call raises PermissionError, whose message names str(args[0]) when
a positional argument is available. Except.error models the raise. -/
def safe_function (args : List String) : Except String Unit :=
  match args with
  | a :: _ => Except.error (permissionDeniedMsg a)
  | [] => Except.error ("[Errno 13] Permission denied")

/-- Result of calling the replaced builtin open: either the real open is
performed on the given file and mode, or PermissionError is raised with
the given message. -/
inductive OpenResult where
  | opened (file mode : String)
  | denied (msg : String)
deriving DecidableEq, Repr

/-- Embeds _create_safe_open's safe_open (sandbox.py lines 46-55): the
real open runs only for a path starting with /proc/ in a read-only mode;
every other call raises PermissionError naming the path. -/
def safe_open (file mode : String) : OpenResult :=
  if str_startswith file ("/proc/")
       && (str_contains_char mode 'r'
           && !str_contains_char mode 'w'
           && !str_contains_char mode 'a'
           && !str_contains_char mode '+') then
    OpenResult.opened file mode
  else
    OpenResult.denied (permissionDeniedMsg file)

/-- The FILESYSTEM_BLACKLIST of os-module functions replaced by the stub
(sandbox.py lines 100-113). -/
def FILESYSTEM_BLACKLIST : List String :=
  ["remove", "unlink", "rmdir", "removedirs",
   "mkdir", "makedirs", "mknod",
   "rename", "renames", "replace", "chmod", "chown", "lchown",
   "open", "truncate",
   "listdir",
   "link", "symlink"]

/-- Network entry points replaced by the stub in _block_network
(sandbox.py lines 141-168). -/
def NETWORK_BLOCKED : List String :=
  ["socket.socket", "socket.create_connection", "socket.create_server",
   "urllib.request.urlopen", "urllib.request.urlretrieve",
   "http.client.HTTPConnection", "http.client.HTTPSConnection"]

/-- Qualified name of a blacklisted os-module function. -/
def osQualified (f : String) : String := "os." ++ f

/-- What a name in the worker's execution namespace is bound to. -/
inductive Binding where
  | original (name : String)
  | stub
  | safeOpen
deriving DecidableEq

/-- Embeds apply_sandbox_to_namespace (sandbox.py lines 60-71 together
with _block_filesystem and _block_network): the builtin open becomes the
safe open, each blacklisted os function and each blocked network entry
point becomes the permission stub, and every other binding is kept. -/
def apply_sandbox_to_namespace (ns : String → Binding) : String → Binding :=
  fun p =>
    if p = "open" then Binding.safeOpen
    else if (FILESYSTEM_BLACKLIST.map osQualified).contains p then Binding.stub
    else if NETWORK_BLOCKED.contains p then Binding.stub
    else ns p

/-- The untouched namespace before sandboxing. -/
def initialNamespace : String → Binding := Binding.original

/-- State carried by the worker's receive loop: its execution namespace.
The sandbox is applied to it exactly once, before the loop starts
(worker_function lines 126-130). -/
structure WorkerState where
  ns : String → Binding

/-- Worker state right after start-up: the sandboxed namespace. -/
def worker_init : WorkerState :=
  ⟨apply_sandbox_to_namespace initialNamespace⟩

/-- The worker receive loop (worker_function lines 133-180): processes
each received command in order, emitting one Outcome per command; the
loop itself never rebinds the sandboxed names and never stops because a
command faulted. -/
def workerLoop : WorkerState → List CodeBehavior → WorkerState × List Outcome
  | st, [] => (st, [])
  | st, c :: cs =>
    let r := workerStep c
    let rest := workerLoop st cs
    (rest.1, r :: rest.2)

/-- Outcomes produced by a freshly started worker on a command list. -/
def workerRun (cs : List CodeBehavior) : List Outcome :=
  (workerLoop worker_init cs).2

/-- Everything SessionProcess.execute observes during one call.
memAtEntry, memAfterResult and memAfterKill are the values of the
concurrently-written memory_exceeded flag at the three points where the
code reads it (lines 57, 75 and 89); alive is process.is_alive() at line
61; channelFails records a queue operation raising (outer except, line
96); result is some r when output_queue.get delivered r within
TIMEOUT_SECONDS and none when the wait timed out. -/
structure ExecCtx where
  memAtEntry : Bool
  alive : Bool
  channelFails : Bool
  result : Option Outcome
  memAfterResult : Bool
  memAfterKill : Bool
deriving DecidableEq

/-- Timeout applied while waiting on the result queue. -/
def SessionProcess.TIMEOUT_SECONDS : Nat := 2

/-- Memory ceiling handed to the monitor, in megabytes. -/
def SessionProcess.MEMORY_LIMIT_MB : Nat := 100

/-- Embeds SessionProcess.execute (session_process.py lines 46-97): the
memory_exceeded flag is checked first, then process liveness, then the
result wait; a delivered result is re-checked against the flag before
being returned; a timed-out wait kills the worker and re-checks the flag
before classifying the outcome as a timeout. -/
def SessionProcess.execute (c : ExecCtx) : Outcome :=
  if c.memAtEntry then ⟨none, none, some ("memory limit exceeded")⟩
  else if !c.alive then ⟨none, none, some ("session crashed")⟩
  else if c.channelFails then ⟨none, none, some ("Internal server error")⟩
  else
    match c.result with
    | some r =>
      if c.memAfterResult then ⟨none, none, some ("memory limit exceeded")⟩
      else r
    | none =>
      if c.memAfterKill then ⟨none, none, some ("memory limit exceeded")⟩
      else ⟨none, none, some ("execution timeout")⟩

/-- Registry state of the SessionManager: the identifiers of the live
sessions (keys of self.sessions; keys are unique). -/
structure ManagerState where
  sessions : List String
deriving DecidableEq

/-- The hard session cap (session_manager.py line 14). -/
def SessionManager.MAX_SESSIONS : Nat := 40

/-- Idle timeout for background reclamation (session_manager.py line 15). -/
def SessionManager.IDLE_TIMEOUT_SECONDS : Nat := 60

/-- Embeds SessionManager._create_session (lines 83-105): refuses when
the live-session count has reached MAX_SESSIONS, otherwise registers a
freshly generated identifier. fresh stands for str(uuid.uuid4()). -/
def SessionManager.createSession (st : ManagerState) (fresh : String) :
    Option String × ManagerState :=
  if st.sessions.length ≥ SessionManager.MAX_SESSIONS then (none, st)
  else (some fresh, ⟨fresh :: st.sessions⟩)

/-- Cases 2 and 3 of SessionManager.execute (lines 65-81): an unknown
identifier yields the session-not-found error, a known one runs
SessionProcess.execute for that session; ctxOf gives each session's
observations for this call. The registry itself is not mutated. -/
def SessionManager.executeExisting (st : ManagerState) (sid : String)
    (ctxOf : String → ExecCtx) : Outcome × String × ManagerState :=
  if sid ∈ st.sessions then (SessionProcess.execute (ctxOf sid), sid, st)
  else (⟨none, none, some ("session not found")⟩, sid, st)

/-- Embeds SessionManager.execute (lines 44-81): with no identifier a
session is created first (failing with max-sessions-reached and an empty
echoed identifier when the cap is hit); then the call proceeds against
the resolved identifier. -/
def SessionManager.execute (st : ManagerState) (sessionId : Option String)
    (fresh : String) (ctxOf : String → ExecCtx) :
    Outcome × String × ManagerState :=
  match sessionId with
  | none =>
    let created := SessionManager.createSession st fresh
    match created.1 with
    | none => (⟨none, none, some ("max sessions reached")⟩, "", created.2)
    | some sid => SessionManager.executeExisting created.2 sid ctxOf
  | some sid => SessionManager.executeExisting st sid ctxOf

/-- Embeds SessionManager._remove_session (lines 126-140): the session
is terminated and dropped from the registry. -/
def SessionManager.removeSession (st : ManagerState) (sid : String) :
    ManagerState :=
  ⟨st.sessions.erase sid⟩

/-- True when the outcome carries a structured error. -/
def hasError (o : Outcome) : Bool := o.error.isSome

/-- True when the outcome carries stdout or stderr text. -/
def hasOutput (o : Outcome) : Bool := o.stdout.isSome || o.stderr.isSome

/-- Embeds ExecuteResponse.check_mutual_exclusivity (response.py lines
10-21) as a predicate: true when the validator accepts the outcome,
false when it would raise ValueError (error populated together with
stdout or stderr). -/
def ExecuteResponse.check_mutual_exclusivity (o : Outcome) : Bool :=
  !(hasError o && hasOutput o)

/-- The reading of the invariant claimed for outcomes: exactly one of
the two sides (some output text) versus (a structured error) holds. -/
def exactlyOneOutputOrError (o : Outcome) : Prop :=
  (hasOutput o = true ∧ hasError o = false)
  ∨ (hasOutput o = false ∧ hasError o = true)

instance (o : Outcome) : Decidable (exactlyOneOutputOrError o) := by
  unfold exactlyOneOutputOrError
  infer_instance

/-- The access safe_open is specified to allow, written from the spec:
a path under /proc/ opened in a read-only mode (the mode contains r and
none of w, a, +). -/
def readOnlyProcAccess_spec (file mode : String) : Prop :=
  str_startswith file ("/proc/") = true
  ∧ str_contains_char mode 'r' = true
  ∧ str_contains_char mode 'w' = false
  ∧ str_contains_char mode 'a' = false
  ∧ str_contains_char mode '+' = false

instance (file mode : String) : Decidable (readOnlyProcAccess_spec file mode) := by
  unfold readOnlyProcAccess_spec
  infer_instance

/-- The module-level names memory_limiter.py actually defines
(memory_limiter.py lines 13 and 30). -/
def memory_limiter_definedNames : List String :=
  ["set_limit_linux", "monitor_process_windows"]

/-- The name session_process.py line 9 imports from memory_limiter and
line 40 uses as the monitor thread's target. -/
def session_process_importedName : String := "monitor_process"

/- Helper lemmas -/

/-- The worker never populates the structured error field: both arms of
its receive loop put None in the third slot. -/
theorem workerStep_error_none (cb : CodeBehavior) : (workerStep cb).error = none := by
  cases cb <;> simp [workerStep]

/-- The response validator accepts any outcome without a structured
error. -/
theorem check_of_error_none (o : Outcome) (h : o.error = none) :
    ExecuteResponse.check_mutual_exclusivity o = true := by
  simp [ExecuteResponse.check_mutual_exclusivity, hasError, h]

/-- The response validator accepts any pure-error outcome. -/
theorem check_of_pure_error (e : String) :
    ExecuteResponse.check_mutual_exclusivity ⟨none, none, some e⟩ = true := by
  simp [ExecuteResponse.check_mutual_exclusivity, hasError, hasOutput]

/-- Every outcome of SessionProcess.execute passes the validator,
provided every result delivered on the channel was put there by the
worker loop. -/
theorem sessionProcess_check (c : ExecCtx)
    (h : ∀ r, c.result = some r → ∃ cb, r = workerStep cb) :
    ExecuteResponse.check_mutual_exclusivity (SessionProcess.execute c) = true := by
  unfold SessionProcess.execute
  split
  · exact check_of_pure_error _
  split
  · exact check_of_pure_error _
  split
  · exact check_of_pure_error _
  split
  next r heq =>
    split
    · exact check_of_pure_error _
    · obtain ⟨cb, rfl⟩ := h r heq
      exact check_of_error_none _ (workerStep_error_none cb)
  next heq =>
    split
    · exact check_of_pure_error _
    · exact check_of_pure_error _

/-- The worker loop never changes its namespace state. -/
theorem workerLoop_ns (st : WorkerState) (cs : List CodeBehavior) :
    (workerLoop st cs).1 = st := by
  induction cs with
  | nil => rfl
  | cons c cs ih => simp [workerLoop, ih]

/-- Every blacklisted os function and blocked network entry point is
bound to the permission stub by the sandbox. -/
theorem sandbox_stub_of_blocked (p : String)
    (hp : p ∈ FILESYSTEM_BLACKLIST.map osQualified ∨ p ∈ NETWORK_BLOCKED) :
    apply_sandbox_to_namespace initialNamespace p = Binding.stub := by
  have hall : ∀ q ∈ FILESYSTEM_BLACKLIST.map osQualified ++ NETWORK_BLOCKED,
      apply_sandbox_to_namespace initialNamespace q = Binding.stub := by decide
  exact hall p (List.mem_append.mpr hp)

/-- Cases 2 and 3 of SessionManager.execute leave the registry
unchanged. -/
theorem executeExisting_state (st : ManagerState) (sid : String)
    (ctxOf : String → ExecCtx) :
    (SessionManager.executeExisting st sid ctxOf).2.2 = st := by
  unfold SessionManager.executeExisting
  split <;> rfl

/- Claim theorems -/

/-- Claim C1, counterexample: a session whose worker was killed for
exceeding the memory ceiling has its memory_exceeded flag set and a dead
process; the next SessionManager.execute call on its identifier returns
the memory-limit-exceeded error, not the session-crashed error the claim
states, because the flag check at line 57 precedes the liveness check at
line 61 and the flag is never cleared. -/
theorem c1_counterexample :
    (SessionManager.execute ⟨["s1"]⟩ (some ("s1")) ("f")
        (fun _ => ⟨true, false, false, none, false, false⟩)).1
      = ⟨none, none, some ("memory limit exceeded")⟩
    ∧ ((SessionManager.execute ⟨["s1"]⟩ (some ("s1")) ("f")
        (fun _ => ⟨true, false, false, none, false, false⟩)).1).error
      ≠ some ("session crashed") := by decide

/-- Claim C1, amended: after a memory kill (the session's flag is set),
the next SessionManager.execute call with that identifier returns the
error memory limit exceeded with stdout and stderr absent, echoes the
same identifier, and leaves the registry unchanged — no fresh
interpreter is registered under the identifier. -/
theorem c1_after_memory_kill (st : ManagerState) (sid fresh : String)
    (ctxOf : String → ExecCtx)
    (hsid : sid ∈ st.sessions)
    (hmem : (ctxOf sid).memAtEntry = true) :
    SessionManager.execute st (some sid) fresh ctxOf
      = (⟨none, none, some ("memory limit exceeded")⟩, sid, st) := by
  unfold SessionManager.execute SessionManager.executeExisting
  dsimp only
  rw [if_pos hsid]
  unfold SessionProcess.execute
  rw [if_pos hmem]

/-- Claim C1, witness for the amended theorem. -/
theorem c1_witness :
    SessionManager.execute ⟨["s1"]⟩ (some ("s1")) ("f")
        (fun _ => ⟨true, false, false, none, false, false⟩)
      = (⟨none, none, some ("memory limit exceeded")⟩, "s1", ⟨["s1"]⟩) :=
  c1_after_memory_kill ⟨["s1"]⟩ ("s1") ("f")
    (fun _ => ⟨true, false, false, none, false, false⟩) (by decide) rfl

/-- Claim C2: the monitor thread's target, the name monitor_process that
session_process.py line 9 imports from memory_limiter, is not among the
names memory_limiter.py defines (only set_limit_linux and
monitor_process_windows exist), so importing the module raises
ImportError and no monitor ever samples memory or sets the flag. -/
theorem c2_monitor_target_missing :
    session_process_importedName ∉ memory_limiter_definedNames
    ∧ ("monitor_process_windows") ∈ memory_limiter_definedNames := by decide

/-- Claim C3: whenever the memory-exceeded flag is set at the read the
code performs last before emitting the outcome — at entry, after a
successful result was delivered on the result channel, or after the kill
that follows a timed-out wait — SessionProcess.execute returns the error
memory limit exceeded, so never the timeout error and never the
delivered success result. -/
theorem c3_memory_flag_wins (c : ExecCtx)
    (h : c.memAtEntry = true
      ∨ (c.alive = true ∧ c.channelFails = false ∧ c.result.isSome = true
          ∧ c.memAfterResult = true)
      ∨ (c.alive = true ∧ c.channelFails = false ∧ c.result = none
          ∧ c.memAfterKill = true)) :
    SessionProcess.execute c = ⟨none, none, some ("memory limit exceeded")⟩ := by
  obtain ⟨m0, al, cf, res, m1, m2⟩ := c
  rcases h with h | ⟨ha, hc, hs, hm⟩ | ⟨ha, hc, hr, hm⟩
  · subst h
    simp [SessionProcess.execute]
  · cases m0
    · subst ha hc hm
      obtain ⟨r, rfl⟩ := Option.isSome_iff_exists.mp hs
      simp [SessionProcess.execute]
    · simp [SessionProcess.execute]
  · cases m0
    · subst ha hc hm hr
      simp [SessionProcess.execute]
    · simp [SessionProcess.execute]

/-- Claim C3, witness: a success result already delivered on the channel
is still reported as a memory violation when the flag is seen set. -/
theorem c3_witness :
    SessionProcess.execute ⟨false, true, false, some ⟨some ("out"), none, none⟩, true, false⟩
      = ⟨none, none, some ("memory limit exceeded")⟩ :=
  c3_memory_flag_wins ⟨false, true, false, some ⟨some ("out"), none, none⟩, true, false⟩
    (Or.inr (Or.inl ⟨rfl, rfl, rfl, rfl⟩))

/-- Claim C4, counterexample: a successful execution that produced no
output is returned by SessionManager.execute with stdout, stderr and
error all absent, so neither the output side nor the error side is
populated and the claimed exactly-one disjunction fails. -/
theorem c4_counterexample :
    (SessionManager.execute ⟨["s1"]⟩ (some ("s1")) ("f")
        (fun _ => ⟨false, true, false, some (workerStep (CodeBehavior.ok ("") (""))),
                   false, false⟩)).1
      = ⟨none, none, none⟩
    ∧ ¬ exactlyOneOutputOrError ⟨none, none, none⟩ := by decide

/-- Claim C4, amended: for every outcome of SessionManager.execute (and
of SessionProcess.execute), at most one of (stdout or stderr populated)
and (error populated) holds — never both, which is exactly what the
ExecuteResponse validator checks — while all three fields may be absent
simultaneously; the hypotheses say that anything delivered on a result
channel was put there by the worker loop. -/
theorem c4_never_both_output_and_error (st : ManagerState)
    (sessionId : Option String) (fresh : String) (ctxOf : String → ExecCtx)
    (c : ExecCtx)
    (hres : ∀ sid r, (ctxOf sid).result = some r → ∃ cb, r = workerStep cb)
    (hc : ∀ r, c.result = some r → ∃ cb, r = workerStep cb) :
    ExecuteResponse.check_mutual_exclusivity
        (SessionManager.execute st sessionId fresh ctxOf).1 = true
    ∧ ExecuteResponse.check_mutual_exclusivity (SessionProcess.execute c) = true := by
  refine ⟨?_, sessionProcess_check c hc⟩
  unfold SessionManager.execute
  cases sessionId with
  | none =>
    dsimp only
    by_cases hcap : st.sessions.length ≥ SessionManager.MAX_SESSIONS
    · simp only [SessionManager.createSession, if_pos hcap]
      exact check_of_pure_error _
    · simp only [SessionManager.createSession, if_neg hcap]
      unfold SessionManager.executeExisting
      split
      · exact sessionProcess_check _ (hres fresh)
      · exact check_of_pure_error _
  | some sid =>
    dsimp only
    unfold SessionManager.executeExisting
    split
    · exact sessionProcess_check _ (hres sid)
    · exact check_of_pure_error _

/-- Claim C4, witness for the amended theorem. -/
theorem c4_witness :
    ExecuteResponse.check_mutual_exclusivity
        (SessionManager.execute ⟨["s1"]⟩ (some ("s1")) ("f")
          (fun _ => ⟨false, true, false, some (workerStep (CodeBehavior.ok ("hi") (""))),
                     false, false⟩)).1 = true
    ∧ ExecuteResponse.check_mutual_exclusivity
        (SessionProcess.execute
          ⟨false, true, false, some (workerStep (CodeBehavior.raised ("") ("") ("tb"))),
           false, false⟩) = true :=
  c4_never_both_output_and_error ⟨["s1"]⟩ (some ("s1")) ("f")
    (fun _ => ⟨false, true, false, some (workerStep (CodeBehavior.ok ("hi") (""))),
               false, false⟩)
    ⟨false, true, false, some (workerStep (CodeBehavior.raised ("") ("") ("tb"))),
     false, false⟩
    (fun _ _r hr => ⟨CodeBehavior.ok ("hi") (""), (Option.some.inj hr).symm⟩)
    (fun _r hr => ⟨CodeBehavior.raised ("") ("") ("tb"), (Option.some.inj hr).symm⟩)

/-- Claim C5: a code fragment that raises a fault having produced no
prior output yields the outcome whose stderr is exactly the fault's
traceback rendering with stdout and the structured error absent; the
worker loop goes on to serve the next command normally (the session
remains usable), and a SessionProcess.execute call that receives this
result (no flag set, worker alive) passes it through unchanged. -/
theorem c5_fault_rendered_stderr (tb so2 se2 : String) (rest : List CodeBehavior) :
    workerRun (CodeBehavior.raised ("") ("") tb :: CodeBehavior.ok so2 se2 :: rest)
      = ⟨none, some tb, none⟩ :: ⟨strToOpt so2, strToOpt se2, none⟩ :: workerRun rest
    ∧ SessionProcess.execute
        ⟨false, true, false, some (workerStep (CodeBehavior.raised ("") ("") tb)),
         false, false⟩
      = ⟨none, some tb, none⟩ := by
  constructor
  · simp [workerRun, workerLoop, workerStep]
  · simp [SessionProcess.execute, workerStep]

/-- Claim C6: a code fragment that completes without a fault and printed
only to standard output yields the outcome whose stdout is exactly the
printed text with stderr and error absent, and a SessionProcess.execute
call that receives this result (no flag set, worker alive) passes it
through unchanged. -/
theorem c6_stdout_exact (so : String) (h : so ≠ "") :
    workerStep (CodeBehavior.ok so ("")) = ⟨some so, none, none⟩
    ∧ SessionProcess.execute
        ⟨false, true, false, some (workerStep (CodeBehavior.ok so (""))), false, false⟩
      = ⟨some so, none, none⟩ := by
  have h1 : workerStep (CodeBehavior.ok so ("")) = ⟨some so, none, none⟩ := by
    simp [workerStep, strToOpt, h]
  exact ⟨h1, by simp [SessionProcess.execute, h1]⟩

/-- Claim C6, witness. -/
theorem c6_witness :
    workerStep (CodeBehavior.ok ("hello\n") ("")) = ⟨some ("hello\n"), none, none⟩
    ∧ SessionProcess.execute
        ⟨false, true, false, some (workerStep (CodeBehavior.ok ("hello\n") (""))),
         false, false⟩
      = ⟨some ("hello\n"), none, none⟩ :=
  c6_stdout_exact ("hello\n") (by decide)

/-- Claim C7, counterexample: the replaced general open does not raise a
permission-denied fault on every call — a read-only open of a path under
/proc/ is carved out and performs the real open (sandbox.py lines
50-52). -/
theorem c7_counterexample :
    safe_open ("/proc/meminfo") ("r") = OpenResult.opened ("/proc/meminfo") ("r") := by
  decide

/-- Claim C7, amended: every call into a denied filesystem or network
primitive — a blacklisted os function or blocked network entry point
(always), or the general open except for a read-only open of a path
under /proc/ — raises a permission-denied fault naming the resource
argument when one is available (and a generic one otherwise); an
evaluated-code fault is surfaced by the worker as stderr text with the
structured error field absent; and after any number of executions the
worker namespace still binds every such primitive to its stub and open
to the safe open, so the restriction persists for the session's life. -/
theorem c7_denied_primitives_fault_as_stderr (p a file mode tb : String)
    (args : List String) (cmds : List CodeBehavior)
    (hp : p ∈ FILESYSTEM_BLACKLIST.map osQualified ∨ p ∈ NETWORK_BLOCKED)
    (hopen : (str_startswith file ("/proc/")
        && (str_contains_char mode 'r' && !str_contains_char mode 'w'
            && !str_contains_char mode 'a' && !str_contains_char mode '+')) = false) :
    safe_function (a :: args) = Except.error (permissionDeniedMsg a)
    ∧ safe_function [] = Except.error ("[Errno 13] Permission denied")
    ∧ safe_open file mode = OpenResult.denied (permissionDeniedMsg file)
    ∧ (workerLoop worker_init cmds).1.ns p = Binding.stub
    ∧ (workerLoop worker_init cmds).1.ns ("open") = Binding.safeOpen
    ∧ workerStep (CodeBehavior.raised ("") ("") tb) = ⟨none, some tb, none⟩ := by
  refine ⟨rfl, rfl, ?_, ?_, ?_, ?_⟩
  · simp [safe_open, hopen]
  · rw [workerLoop_ns]
    exact sandbox_stub_of_blocked p hp
  · rw [workerLoop_ns]
    rfl
  · simp [workerStep]

/-- Claim C7, witness for the amended theorem. -/
theorem c7_witness :
    safe_function (("file.txt") :: []) = Except.error (permissionDeniedMsg ("file.txt"))
    ∧ safe_function [] = Except.error ("[Errno 13] Permission denied")
    ∧ safe_open ("/etc/passwd") ("w") = OpenResult.denied (permissionDeniedMsg ("/etc/passwd"))
    ∧ (workerLoop worker_init []).1.ns ("os.remove") = Binding.stub
    ∧ (workerLoop worker_init []).1.ns ("open") = Binding.safeOpen
    ∧ workerStep (CodeBehavior.raised ("") ("") ("TB")) = ⟨none, some ("TB"), none⟩ :=
  c7_denied_primitives_fault_as_stderr ("os.remove") ("file.txt") ("/etc/passwd") ("w")
    ("TB") [] [] (Or.inl (by decide)) (by decide)

/-- Claim C8: the replaced general open performs the real open exactly
when the path starts with /proc/ and the mode is read-only (contains r
and none of w, a, +), and in every other case it is denied with a
permission fault naming the path. -/
theorem c8_safe_open_characterization (file mode : String) :
    (safe_open file mode = OpenResult.opened file mode
      ↔ readOnlyProcAccess_spec file mode)
    ∧ (safe_open file mode = OpenResult.denied (permissionDeniedMsg file)
      ↔ ¬ readOnlyProcAccess_spec file mode) := by
  unfold safe_open readOnlyProcAccess_spec
  split
  next hcond =>
    simp only [Bool.and_eq_true, Bool.not_eq_true'] at hcond
    obtain ⟨h1, ⟨⟨h2, h3⟩, h4⟩, h5⟩ := hcond
    have hspec : str_startswith file ("/proc/") = true
        ∧ str_contains_char mode 'r' = true
        ∧ str_contains_char mode 'w' = false
        ∧ str_contains_char mode 'a' = false
        ∧ str_contains_char mode '+' = false := ⟨h1, h2, h3, h4, h5⟩
    exact ⟨iff_of_true rfl hspec, iff_of_false (by simp) (not_not_intro hspec)⟩
  next hcond =>
    have hfalse : (str_startswith file ("/proc/")
        && (str_contains_char mode 'r' && !str_contains_char mode 'w'
            && !str_contains_char mode 'a' && !str_contains_char mode '+')) = false :=
      Bool.eq_false_iff.mpr hcond
    have hnspec : ¬ (str_startswith file ("/proc/") = true
        ∧ str_contains_char mode 'r' = true
        ∧ str_contains_char mode 'w' = false
        ∧ str_contains_char mode 'a' = false
        ∧ str_contains_char mode '+' = false) := by
      rintro ⟨h1, h2, h3, h4, h5⟩
      rw [h1, h2, h3, h4, h5] at hfalse
      simp at hfalse
    exact ⟨iff_of_false (by simp) hnspec, iff_of_true rfl hnspec⟩

/-- Claim C9: the registry never exceeds the cap of MAX_SESSIONS (40)
live sessions — any SessionManager.execute call preserves the bound;
while the count is below the cap, creation succeeds and registers the
fresh identifier; a call with no identifier while the count is already
at the cap returns the error max sessions reached, echoes an empty
identifier and registers no new session; and removal never increases
the count. -/
theorem c9_session_cap (st : ManagerState) (sessionId : Option String)
    (fresh sid : String) (ctxOf : String → ExecCtx) :
    (st.sessions.length ≤ SessionManager.MAX_SESSIONS →
      ((SessionManager.execute st sessionId fresh ctxOf).2.2).sessions.length
        ≤ SessionManager.MAX_SESSIONS)
    ∧ (st.sessions.length < SessionManager.MAX_SESSIONS →
      SessionManager.createSession st fresh = (some fresh, ⟨fresh :: st.sessions⟩))
    ∧ (st.sessions.length = SessionManager.MAX_SESSIONS →
      SessionManager.execute st none fresh ctxOf
        = (⟨none, none, some ("max sessions reached")⟩, "", st))
    ∧ (SessionManager.removeSession st sid).sessions.length ≤ st.sessions.length := by
  refine ⟨?_, ?_, ?_, ?_⟩
  · intro hle
    unfold SessionManager.execute
    cases sessionId with
    | none =>
      dsimp only
      by_cases hcap : st.sessions.length ≥ SessionManager.MAX_SESSIONS
      · simp only [SessionManager.createSession, if_pos hcap]
        exact hle
      · simp only [SessionManager.createSession, if_neg hcap]
        rw [executeExisting_state]
        have : st.sessions.length < SessionManager.MAX_SESSIONS := lt_of_not_ge hcap
        simpa using this
    | some s =>
      dsimp only
      rw [executeExisting_state]
      exact hle
  · intro hlt
    unfold SessionManager.createSession
    rw [if_neg (not_le_of_lt hlt)]
  · intro heq
    unfold SessionManager.execute
    dsimp only
    have hcap : st.sessions.length ≥ SessionManager.MAX_SESSIONS := le_of_eq heq.symm
    simp only [SessionManager.createSession, if_pos hcap]
  · exact List.Sublist.length_le (List.erase_sublist _ _)

/-- Claim C9, witness: the three conditional parts applied at an empty
registry and at a registry already holding 40 sessions. -/
theorem c9_witness :
    ((SessionManager.execute ⟨List.replicate 40 ("x")⟩ none ("f")
        (fun _ => ⟨false, true, false, none, false, false⟩)).2.2).sessions.length
      ≤ SessionManager.MAX_SESSIONS
    ∧ SessionManager.createSession ⟨[]⟩ ("f") = (some ("f"), ⟨("f") :: []⟩)
    ∧ SessionManager.execute ⟨List.replicate 40 ("x")⟩ none ("f")
        (fun _ => ⟨false, true, false, none, false, false⟩)
      = (⟨none, none, some ("max sessions reached")⟩, "", ⟨List.replicate 40 ("x")⟩) :=
  ⟨(c9_session_cap ⟨List.replicate 40 ("x")⟩ none ("f") ("s")
      (fun _ => ⟨false, true, false, none, false, false⟩)).1 (by decide),
   (c9_session_cap ⟨[]⟩ none ("f") ("s")
      (fun _ => ⟨false, true, false, none, false, false⟩)).2.1 (by decide),
   (c9_session_cap ⟨List.replicate 40 ("x")⟩ none ("f") ("s")
      (fun _ => ⟨false, true, false, none, false, false⟩)).2.2.1 (by decide)⟩

/-- Claim C10: when evaluated code raises a fault, the worker reports
stdout as absent even if text was printed to standard output before the
fault; the reported stderr is the text the code wrote to standard error
before the fault whenever that text is non-empty, and the traceback
rendering is substituted exactly when no stderr text was captured. -/
theorem c10_fault_discards_stdout (so se tb : String) :
    (workerStep (CodeBehavior.raised so se tb)).stdout = none
    ∧ (se ≠ "" → workerStep (CodeBehavior.raised so se tb) = ⟨none, some se, none⟩)
    ∧ (se = "" → workerStep (CodeBehavior.raised so se tb) = ⟨none, some tb, none⟩) := by
  refine ⟨rfl, ?_, ?_⟩
  · intro h
    simp [workerStep, h]
  · intro h
    simp [workerStep, h]

/-- Claim C10, witness: both the captured-stderr case and the
substituted-traceback case at concrete inputs. -/
theorem c10_witness :
    workerStep (CodeBehavior.raised ("printed") ("warn") ("TB")) = ⟨none, some ("warn"), none⟩
    ∧ workerStep (CodeBehavior.raised ("printed") ("") ("TB")) = ⟨none, some ("TB"), none⟩ :=
  ⟨(c10_fault_discards_stdout ("printed") ("warn") ("TB")).2.1 (by decide),
   (c10_fault_discards_stdout ("printed") ("") ("TB")).2.2 rfl⟩
